import Mathlib

set_option maxRecDepth 8000

/-!
Shallow embedding of the wine-searcher scraper (`src/main.py`).

The Python program is a single-session Playwright scraper.  The embedding
models each function of the source over explicit data:

* a loaded detail page is a `Doc`: the responses the page gives to the
  `query_selector` / `query_selector_all` / `inner_text("body")` calls that
  `extract_wine_data` performs, each of which may raise (constructor
  `Res.err`) exactly as a Playwright call may;
* `extract_wine_data`, `extract_wine_links` and `main` are translated
  line by line from the source; the browser/stealth setup, logging text,
  screenshots and the Apify sink are collaborators that do not influence
  the data flow and are represented by the recorded fields of `RunResult`;
* regular-expression searches of the source are implemented as executable
  scanners over the character list of the text, following Python `re.search`
  semantics (leftmost match, greedy quantifiers with backtracking) for the
  concrete patterns appearing in the source.
-/

namespace WS

/-! ### String utilities (models of the Python `str` operations used) -/

/-- Whitespace as `str.strip` / `\s` treat it (ASCII range). -/
def wsChar (c : Char) : Bool :=
  c == ' ' || c == '\t' || c == '\n' || c == '\r' || c == '\x0b' || c == '\x0c'

/-- Python `str.strip()` on the character list. -/
def stripL (l : List Char) : List Char :=
  ((l.dropWhile wsChar).reverse.dropWhile wsChar).reverse

/-- Python `str.strip()`. -/
def strip (s : String) : String := ⟨stripL s.data⟩

/-- Python `str.lower()` (ASCII letters, as all compared markers are ASCII). -/
def lowerStr (s : String) : String := ⟨s.data.map Char.toLower⟩

/-- Helper for the Python substring test `needle in hay`. -/
def hasSubAux (n : List Char) : List Char → Bool
  | [] => n.isEmpty
  | c :: t => n.isPrefixOf (c :: t) || hasSubAux n t

/-- Python substring containment `n in s`. -/
def containsSub (n s : String) : Bool := hasSubAux n.data s.data

/-- Numeric value of a list of decimal digits, as Python `int`. -/
def digitsVal (l : List Char) : Nat :=
  l.foldl (fun a c => a * 10 + (c.toNat - 48)) 0

/-! ### Regular-expression models

Each Python pattern of the source is modelled by a scanner over the
character list.  `scanFirst m` is `re.search`: try the matcher at every
position from the left and return the first success. -/

/-- Case-insensitive literal match; on success returns the rest of the text. -/
def ciMatch : List Char → List Char → Option (List Char)
  | [], s => some s
  | _ :: _, [] => none
  | p :: pt, c :: ct => if p.toLower = c.toLower then ciMatch pt ct else none

/-- Greedy skip of the class `[:\s]*`. -/
def skipColWS (l : List Char) : List Char :=
  l.dropWhile (fun c => c == ':' || wsChar c)

/-- `re.search` over a positional matcher: leftmost successful position wins. -/
def scanFirst {α : Type} (m : List Char → Option α) : List Char → Option α
  | [] => none
  | c :: t =>
    match m (c :: t) with
    | some v => some v
    | none => scanFirst m t

/-- Group of `(\d{2,3})` anchored at the current position: two digits
required, a third taken greedily when present. -/
def grab23 : List Char → Option (List Char)
  | c1 :: c2 :: rest =>
    if c1.isDigit && c2.isDigit then
      some (match rest with
        | c3 :: _ => if c3.isDigit then [c1, c2, c3] else [c1, c2]
        | [] => [c1, c2])
    else none
  | _ => none

/-- Literal `/100`. -/
def slash100 (l : List Char) : Bool := ['/', '1', '0', '0'].isPrefixOf l

/-- `(\d{2,3})/100` anchored at the current position, with the greedy
quantifier backtracking from three digits to two. -/
def grabR100 : List Char → Option Nat
  | c1 :: c2 :: rest =>
    if c1.isDigit && c2.isDigit then
      match rest with
      | c3 :: rest2 =>
        if c3.isDigit && slash100 rest2 then some (digitsVal [c1, c2, c3])
        else if slash100 rest then some (digitsVal [c1, c2])
        else none
      | [] => none
    else none
  | _ => none

/-- Positional matcher for `Critic Score[:\s]*(\d{2,3})` (IGNORECASE). -/
def pCritic (l : List Char) : Option Nat :=
  match ciMatch "critic score".data l with
  | some rem => (grab23 (skipColWS rem)).map digitsVal
  | none => none

/-- Positional matcher for `Rating[:\s]*(\d{2,3})/100` (IGNORECASE). -/
def pRating100 (l : List Char) : Option Nat :=
  match ciMatch "rating".data l with
  | some rem => grabR100 (skipColWS rem)
  | none => none

/-- Positional matcher for `(\d{2,3})/100`. -/
def pBare100 (l : List Char) : Option Nat := grabR100 l

/-- Positional matcher for `(\d{2,3})(?:/100)?`, used on rating elements. -/
def pNum23 (l : List Char) : Option Nat := (grab23 l).map digitsVal

/-- Ordered rating body-text patterns of the source (lines 145-149). -/
def ratingPats : List (List Char → Option Nat) :=
  [scanFirst pCritic, scanFirst pRating100, scanFirst pBare100]

/-- Loop of source lines 150-156: first pattern whose match passes the
`50 <= rating <= 100` validation wins; an out-of-range match falls through
to the next pattern. -/
def ratingPatLoop (l : List Char) : List (List Char → Option Nat) → Option Nat
  | [] => none
  | p :: rest =>
    match p l with
    | some n => if 50 ≤ n ∧ n ≤ 100 then some n else ratingPatLoop l rest
    | none => ratingPatLoop l rest

/-- Optional leading `#?`. -/
def dropHash : List Char → List Char
  | '#' :: t => t
  | l => l

/-- Greedy `(\d+)` anchored at the current position. -/
def grabDigits (l : List Char) : Option Nat :=
  let ds := l.takeWhile Char.isDigit
  if ds.isEmpty then none else some (digitsVal ds)

/-- Positional matcher for `Search Rank[:\s]*#?(\d+)` (IGNORECASE). -/
def pSearchRank (l : List Char) : Option Nat :=
  match ciMatch "search rank".data l with
  | some rem => grabDigits (dropHash (skipColWS rem))
  | none => none

/-- Positional matcher for `Rank[:\s]*#?(\d+)` (IGNORECASE). -/
def pRank (l : List Char) : Option Nat :=
  match ciMatch "rank".data l with
  | some rem => grabDigits (dropHash (skipColWS rem))
  | none => none

/-- Positional matcher for `#(\d+)\s*(?:this month|last month)` (IGNORECASE). -/
def pHashRank (l : List Char) : Option Nat :=
  match l with
  | '#' :: t =>
    let ds := t.takeWhile Char.isDigit
    if ds.isEmpty then none
    else
      let rest := (t.drop ds.length).dropWhile wsChar
      if (ciMatch "this month".data rest).isSome || (ciMatch "last month".data rest).isSome
      then some (digitsVal ds) else none
  | _ => none

/-- Ordered search-rank patterns of the source (lines 236-240). -/
def rankPats : List (List Char → Option Nat) :=
  [scanFirst pSearchRank, scanFirst pRank, scanFirst pHashRank]

/-- Loop of source lines 241-245: first matching pattern wins, no validation. -/
def rankPatLoop (l : List Char) : List (List Char → Option Nat) → Option Nat
  | [] => none
  | p :: rest =>
    match p l with
    | some n => some n
    | none => rankPatLoop l rest

/-- Currency class `[\$€£]`. -/
def currencyChar (c : Char) : Bool := c == '$' || c == '€' || c == '£'

/-- Tail `\s*\d+(?:[.,]\d{2})?` of the price group, returning the matched
characters. -/
def priceTail (l : List Char) : Option (List Char) :=
  let sp := l.takeWhile wsChar
  let r := l.drop sp.length
  let ds := r.takeWhile Char.isDigit
  if ds.isEmpty then none
  else
    let r2 := r.drop ds.length
    let dec : List Char :=
      match r2 with
      | p :: d1 :: d2 :: _ =>
        if (p == '.' || p == ',') && d1.isDigit && d2.isDigit then [p, d1, d2] else []
      | _ => []
    some (sp ++ ds ++ dec)

/-- Positional matcher for `Avg\.?\s*Price[:\s]*([\$€£]?\s*\d+(?:[.,]\d{2})?)`
(IGNORECASE), returning the group characters. -/
def pAvgPrice (l : List Char) : Option (List Char) :=
  match ciMatch "avg".data l with
  | none => none
  | some r1 =>
    let r2 := match r1 with
      | '.' :: t => t
      | _ => r1
    let r3 := r2.dropWhile wsChar
    match ciMatch "price".data r3 with
    | none => none
    | some r4 =>
      let r5 := skipColWS r4
      match r5 with
      | c :: t =>
        if currencyChar c then (priceTail t).map (fun g => c :: g)
        else priceTail r5
      | [] => none

/-- Positional matcher for `Average[:\s]*([\$€£]\s*\d+(?:[.,]\d{2})?)`
(IGNORECASE); here the currency sign is mandatory. -/
def pAverage (l : List Char) : Option (List Char) :=
  match ciMatch "average".data l with
  | none => none
  | some r1 =>
    match skipColWS r1 with
    | c :: t => if currencyChar c then (priceTail t).map (fun g => c :: g) else none
    | [] => none

/-- Loop of source lines 213-221: the two average-price body patterns in
order, first match wins. -/
def priceBodyPats (l : List Char) : Option String :=
  match scanFirst pAvgPrice l with
  | some g => some ⟨g⟩
  | none =>
    match scanFirst pAverage l with
    | some g => some ⟨g⟩
    | none => none

/-- Character class `[A-Za-z\s,]` of the style body pattern. -/
def styleClassChar (c : Char) : Bool := c.isAlpha || wsChar c || c == ','

/-- Alternation `(?:Red|White|Rosé|Sparkling|Dessert)` in source order. -/
def styleKws : List String := ["Red", "White", "Rosé", "Sparkling", "Dessert"]

/-- Length of the first alternative matching case-insensitively at the head. -/
def kwHere (l : List Char) : Option Nat :=
  styleKws.findSome? (fun k => if (ciMatch k.data l).isSome then some k.data.length else none)

/-- Backtracking of the greedy `[A-Za-z\s,]+` before the keyword: try the
longest admissible prefix first, shrinking until a keyword follows. -/
def styleTry (l : List Char) : Nat → Option (List Char)
  | 0 => none
  | p + 1 =>
    match kwHere (l.drop (p + 1)) with
    | some klen =>
      let rest := l.drop (p + 1)
      some (l.take (p + 1) ++ rest.take klen ++ ((rest.drop klen).takeWhile styleClassChar))
    | none => styleTry l p

/-- Positional matcher for
`Style[:\s]*([A-Za-z\s,]+(?:Red|White|Rosé|Sparkling|Dessert)[A-Za-z\s,]*)`
(IGNORECASE), returning the group characters. -/
def pStyle (l : List Char) : Option (List Char) :=
  match ciMatch "style".data l with
  | none => none
  | some rem =>
    let rem2 := skipColWS rem
    styleTry rem2 ((rem2.takeWhile styleClassChar).length)

/-! ### Documents and elements -/

/-- Outcome of a collaborator call that may raise; the exception value is
irrelevant to the source (it only logs it), so it is not recorded. -/
inductive Res (α : Type)
  | err
  | ok (v : α)
deriving DecidableEq, Repr

/-- An element handle: the behaviour of its `inner_text()` call. -/
structure Element where
  text : Res String
deriving DecidableEq, Repr

/-- A loaded detail page: the responses to the queries `extract_wine_data`
performs.  Selectors absent from the association lists match nothing
(`query_selector` returns `None`, `query_selector_all` returns `[]`).
`analyticsTab`, `clickRes` and `bodyAfter` model the analytics affordance:
the tab query of line 229, its `click()`, and the body text read after the
click (the click may change the page, so it is a separate field). -/
structure Doc where
  q1 : List (String × Res (Option Element))
  qAll : List (String × Res (List Element))
  body : Res String
  analyticsTab : Res (Option Element)
  clickRes : Res Unit
  bodyAfter : Res String
deriving DecidableEq, Repr

/-- `page.query_selector s` on the document. -/
def q1Res (d : Doc) (s : String) : Res (Option Element) :=
  (List.lookup s d.q1).getD (.ok none)

/-- `page.query_selector_all s` on the document. -/
def qAllRes (d : Doc) (s : String) : Res (List Element) :=
  (List.lookup s d.qAll).getD (.ok [])

/-! ### Field extraction (`extract_wine_data`, source lines 62-256) -/

/-- Name selector cascade (source lines 79-86). -/
def nameSelectors : List String :=
  ["h1.wine-name", "h1[class*=\"wine\"]", "h1", ".wine-name",
   "[data-testid=\"wine-name\"]", ".header-name"]

/-- Appellation selector cascade (source lines 99-104). -/
def appellationSelectors : List String :=
  ["[class*=\"appellation\"]", "[data-testid=\"appellation\"]",
   ".wine-appellation", "a[href*=\"/regions/\"]"]

/-- Rating selector cascade (source lines 117-122). -/
def ratingSelectors : List String :=
  ["[class*=\"rating\"]", "[class*=\"score\"]", ".critic-score",
   "[data-testid=\"rating\"]"]

/-- Style selector cascade (source lines 161-165). -/
def styleSelectors : List String :=
  ["[class*=\"style\"]", ".wine-style", "[data-testid=\"style\"]"]

/-- Price selector cascade (source lines 188-193). -/
def priceSelectors : List String :=
  ["[class*=\"price\"]", "[class*=\"avg\"]", ".average-price",
   "[data-testid=\"price\"]"]

/-- One iteration of the name loop (lines 87-96): any raise, missing
element, or text failing `text and len(text) > 2` yields nothing and the
loop falls through to the next selector. -/
def nameStep (d : Doc) (s : String) : Option String :=
  match q1Res d s with
  | .err => none
  | .ok none => none
  | .ok (some e) =>
    match e.text with
    | .err => none
    | .ok t => if t ≠ "" ∧ t.length > 2 then some (strip t) else none

/-- One iteration of the appellation loop (lines 105-114): guard is `if text`. -/
def appStep (d : Doc) (s : String) : Option String :=
  match q1Res d s with
  | .err => none
  | .ok none => none
  | .ok (some e) =>
    match e.text with
    | .err => none
    | .ok t => if t ≠ "" then some (strip t) else none

/-- One iteration of the style loop (lines 166-175): guard is
`if text and "style" not in text.lower()`. -/
def styleStep (d : Doc) (s : String) : Option String :=
  match q1Res d s with
  | .err => none
  | .ok none => none
  | .ok (some e) =>
    match e.text with
    | .err => none
    | .ok t =>
      if t ≠ "" ∧ containsSub "style" (lowerStr t) = false then some (strip t) else none

/-- Inner element loop of the rating selectors (lines 125-134): a raise
while reading an element aborts the whole selector (`except: continue` on
the outer loop), a non-matching or out-of-range element moves to the next
element. -/
def ratingElems : List Element → Res (Option Nat)
  | [] => .ok none
  | e :: rest =>
    match e.text with
    | .err => .err
    | .ok t =>
      match scanFirst pNum23 t.data with
      | some n => if 50 ≤ n ∧ n ≤ 100 then .ok (some n) else ratingElems rest
      | none => ratingElems rest

/-- One iteration of the rating selector loop (lines 123-138). -/
def ratingStep (d : Doc) (s : String) : Option Nat :=
  match qAllRes d s with
  | .err => none
  | .ok elems =>
    match ratingElems elems with
    | .err => none
    | .ok r => r

/-- Inner element loop of the price selectors (lines 196-203): the price
regex succeeds exactly when the text contains a digit, and the *whole*
trimmed text is stored. -/
def priceElems : List Element → Res (Option String)
  | [] => .ok none
  | e :: rest =>
    match e.text with
    | .err => .err
    | .ok t => if t.data.any Char.isDigit then .ok (some (strip t)) else priceElems rest

/-- One iteration of the price selector loop (lines 194-207). -/
def priceStep (d : Doc) (s : String) : Option String :=
  match qAllRes d s with
  | .err => none
  | .ok elems =>
    match priceElems elems with
    | .err => none
    | .ok r => r

/-- The common shape of every selector loop: first selector producing a
value wins, failures fall through. -/
def firstHit {α : Type} (step : String → Option α) : List String → Option α
  | [] => none
  | s :: rest =>
    match step s with
    | some v => some v
    | none => firstHit step rest

/-- Rating body-text fallback (lines 141-158): a raise reading the body
leaves the field untouched. -/
def ratingBody (d : Doc) : Option Nat :=
  match d.body with
  | .err => none
  | .ok t => ratingPatLoop t.data ratingPats

/-- Style body-text fallback (lines 178-185), returning the raw group. -/
def styleBody (d : Doc) : Option String :=
  match d.body with
  | .err => none
  | .ok t => (scanFirst pStyle t.data).map (fun g => (⟨g⟩ : String))

/-- Price body-text fallback (lines 210-223), returning the raw group. -/
def priceBody (d : Doc) : Option String :=
  match d.body with
  | .err => none
  | .ok t => priceBodyPats t.data

/-- Analytics search-rank path (lines 226-247): the tab query, the click and
the body read may each raise; the enclosing `except` turns any raise into
an absent field. -/
def rankPath (d : Doc) : Option Nat :=
  match d.analyticsTab with
  | .err => none
  | .ok none => none
  | .ok (some _) =>
    match d.clickRes with
    | .err => none
    | .ok _ =>
      match d.bodyAfter with
      | .err => none
      | .ok t => rankPatLoop t.data rankPats

/-- Python truthiness of an optional string (`None` and `""` are falsy). -/
def truthyS (v : Option String) : Bool :=
  match v with
  | none => false
  | some s => s != ""

/-- Python truthiness of an optional integer (`None` and `0` are falsy). -/
def truthyN (v : Option Nat) : Bool :=
  match v with
  | none => false
  | some n => n != 0

/-- Body-text fallback guard used for style and price: run only when the
current value is falsy, overwrite only on a match, and store the stripped
group. -/
def fallbackS (v : Option String) (scan : Option String) : Option String :=
  if truthyS v then v
  else
    match scan with
    | some g => some (strip g)
    | none => v

/-- Body-text fallback guard for the rating (already validated, not stripped). -/
def fallbackN (v : Option Nat) (scan : Option Nat) : Option Nat :=
  if truthyN v then v
  else
    match scan with
    | some n => some n
    | none => v

/-- The record assembled by `extract_wine_data` (the `wine_data` dict of
lines 68-76). -/
structure WineData where
  url : String
  name : Option String
  appellation : Option String
  rating : Option Nat
  style : Option String
  search_rank : Option Nat
  avg_price : Option String
deriving DecidableEq, Repr

/-- Field extraction of `extract_wine_data` after a successful navigation
(source lines 68-249). -/
def extractFields (d : Doc) (include_analytics : Bool) (url : String) : WineData :=
  { url := url
    name := firstHit (nameStep d) nameSelectors
    appellation := firstHit (appStep d) appellationSelectors
    rating := fallbackN (firstHit (ratingStep d) ratingSelectors) (ratingBody d)
    style := fallbackS (firstHit (styleStep d) styleSelectors) (styleBody d)
    search_rank := if include_analytics then rankPath d else none
    avg_price := fallbackS (firstHit (priceStep d) priceSelectors) (priceBody d) }

/-- Outcome of the `page.goto` on a detail page (line 65): a
`PlaywrightTimeout`, another exception, or a loaded document (the ignored
`wait_for_page_ready` call never raises and its result is discarded). -/
inductive DetailNav
  | timeout
  | failed
  | ok (d : Doc)
deriving DecidableEq, Repr

/-- `extract_wine_data` (source lines 62-256): both exception arms of lines
251-256 return `None`; otherwise the full record is returned. -/
def extract_wine_data (nav : DetailNav) (url : String) (include_analytics : Bool) :
    Option WineData :=
  match nav with
  | .timeout => none
  | .failed => none
  | .ok d => some (extractFields d include_analytics url)

/-! ### Link discovery (`extract_wine_links`, source lines 42-59) -/

/-- Modelled from `urllib.parse.urljoin("https://www.wine-searcher.com", href)`
for the href shapes reaching it: absolute URLs pass through, scheme-relative
URLs get the base scheme, root-relative and bare paths are joined to the
origin. -/
def urljoin (base href : String) : String :=
  if "http".data.isPrefixOf href.data then href
  else if "//".data.isPrefixOf href.data then "https:" ++ href
  else if "/".data.isPrefixOf href.data then base ++ href
  else base ++ "/" ++ href

/-- The hard-coded join base of line 54. -/
def wineSearcherBase : String := "https://www.wine-searcher.com"

/-- Accumulating loop of lines 51-56: each anchor's href is re-checked
(`if href and "/find/" in href`), resolved, and appended only when not
already collected. -/
def linksLoop (acc : List String) : List (Option String) → List String
  | [] => acc
  | h? :: rest =>
    match h? with
    | none => linksLoop acc rest
    | some h =>
      if h ≠ "" ∧ containsSub "/find/" h = true then
        if urljoin wineSearcherBase h ∈ acc then linksLoop acc rest
        else linksLoop (acc ++ [urljoin wineSearcherBase h]) rest
      else linksLoop acc rest

/-- `extract_wine_links` (source lines 42-59) over the `href` attributes of
the anchors returned by the `a[href*="/find/"]` query. -/
def extract_wine_links (hrefs : List (Option String)) : List String :=
  linksLoop [] hrefs

/-- Fallback broad scan of `main` (source lines 411-417): every anchor whose
href contains `wine` or `find` case-insensitively is logged for diagnostics;
nothing is collected into the link set.  The produced list models the debug
log lines. -/
def fallbackScan (anchors : List (Option String × String)) : List String :=
  anchors.filterMap (fun a =>
    match a.1 with
    | none => none
    | some h =>
      if h ≠ "" ∧ (containsSub "wine" (lowerStr h) = true ∨ containsSub "find" (lowerStr h) = true) then
        some ("Found link: " ++ h ++ " - " ++
          (if a.2 ≠ "" then (⟨a.2.data.take 50⟩ : String) else "no text"))
      else none)

/-! ### Run controller (`main`, source lines 259-451) -/

/-- The Actor input of lines 263-267, with the defaults used by `.get`. -/
structure ActorInput where
  domain_url : String
  max_wines : Int
  include_analytics : Bool
  use_proxy : Bool

/-- Outcome of one `page.goto(domain_url, ...)` attempt of line 386:
a `PlaywrightTimeout`, a non-timeout exception, or success together with the
boolean `wait_for_page_ready` returns (that helper catches its own
exceptions and never raises). -/
inductive StartOutcome
  | timeout
  | failed
  | ok (ready : Bool)

/-- Result of the start-page retry loop: whether it escaped with an
exception, how many navigations were performed and which backoff sleeps
(in seconds) were taken. -/
structure StartRes where
  fatal : Bool
  navs : Nat
  sleeps : List Nat
deriving DecidableEq, Repr

/-- Retry loop of lines 384-394 over the remaining attempt indices:
`ok true` breaks out; `ok false` continues without sleeping; a timeout on a
non-final attempt sleeps 5 s and retries; a timeout on the final attempt
re-raises; any non-timeout exception is not caught and propagates at once.
Exhausting all attempts without a break proceeds (not fatal), as the source
does. -/
def startLoop (f : Nat → StartOutcome) : List Nat → StartRes
  | [] => ⟨false, 0, []⟩
  | a :: rest =>
    match f a with
    | .ok true => ⟨false, 1, []⟩
    | .ok false =>
      let r := startLoop f rest
      ⟨r.fatal, r.navs + 1, r.sleeps⟩
    | .timeout =>
      if rest.isEmpty then ⟨true, 1, []⟩
      else
        let r := startLoop f rest
        ⟨r.fatal, r.navs + 1, 5 :: r.sleeps⟩
    | .failed => ⟨true, 1, []⟩

/-- The `for attempt in range(3)` loop of line 384. -/
def startLoad (f : Nat → StartOutcome) : StartRes := startLoop f [0, 1, 2]

/-- A run's environment: the input, the start-page navigation outcomes, the
listing page's anchors (for the primary query and the fallback scan), and
each detail URL's navigation outcome. -/
structure World where
  input : ActorInput
  start : Nat → StartOutcome
  listingHrefs : List (Option String)
  allAnchors : List (Option String × String)
  details : String → DetailNav

/-- One iteration of the scraping loop (lines 425-437): the record is pushed
to the sink exactly when `wine_data and wine_data.get("name")` is truthy. -/
def emitStep (w : World) (u : String) : Option WineData :=
  match extract_wine_data (w.details u) u w.input.include_analytics with
  | none => none
  | some d => if truthyS d.name then some d else none

/-- The links the run loop iterates: lines 419-420 truncate only when
`max_wines > 0`. -/
def procLinks (w : World) : List String :=
  if w.input.max_wines > 0 then
    (extract_wine_links w.listingHrefs).take w.input.max_wines.toNat
  else extract_wine_links w.listingHrefs

/-- Observable outcome of a run of `main`: the early-return on missing
input, whether the outer try re-raised, the start-page navigation and sleep
trace, the diagnostic fallback log lines, the detail URLs iterated, the
number of assembly attempts, the records pushed to the sink in order, and
the inter-request pacing sleeps. -/
structure RunResult where
  configError : Bool
  fatal : Bool
  startNavs : Nat
  startSleeps : List Nat
  fallbackLogs : List String
  detailNavs : List String
  attempted : Nat
  emitted : List WineData
  paceSleeps : List Nat
deriving DecidableEq, Repr

/-- `main` (source lines 259-451).  The missing-input check of lines 269-271
returns before any browser or network activity; a fatal start-page load
aborts with nothing attempted; otherwise links are discovered, the fallback
scan runs only when the primary set is empty, the set is truncated by
`max_wines`, and each URL is attempted in order with a `3 + (i % 3)` second
pacing sleep.  Proxy configuration, stealth setup, logging text, screenshots
and the sink are collaborators without influence on these observables. -/
def main (w : World) : RunResult :=
  if w.input.domain_url = "" then
    { configError := true, fatal := false, startNavs := 0, startSleeps := [],
      fallbackLogs := [], detailNavs := [], attempted := 0, emitted := [],
      paceSleeps := [] }
  else if (startLoad w.start).fatal then
    { configError := false, fatal := true, startNavs := (startLoad w.start).navs,
      startSleeps := (startLoad w.start).sleeps, fallbackLogs := [],
      detailNavs := [], attempted := 0, emitted := [], paceSleeps := [] }
  else
    { configError := false, fatal := false, startNavs := (startLoad w.start).navs,
      startSleeps := (startLoad w.start).sleeps,
      fallbackLogs :=
        if (extract_wine_links w.listingHrefs).isEmpty then fallbackScan w.allAnchors
        else [],
      detailNavs := procLinks w,
      attempted := (procLinks w).length,
      emitted := (procLinks w).filterMap (emitStep w),
      paceSleeps := (List.range (procLinks w).length).map (fun i => 3 + i % 3) }

/-! ### Concrete documents and worlds used to exercise the theorems -/

/-- A name element as in Scenario A of the spec. -/
def elName : Element := ⟨.ok "Château Test 2015"⟩

/-- A simple detail page exposing only an `h1` name. -/
def docA : Doc :=
  { q1 := [("h1", .ok (some elName))]
    qAll := []
    body := .ok ""
    analyticsTab := .ok none
    clickRes := .ok ()
    bodyAfter := .ok "" }

/-- A page answering every query with a raise, and the body raising too. -/
def docEmpty : Doc :=
  { q1 := []
    qAll := []
    body := .err
    analyticsTab := .err
    clickRes := .err
    bodyAfter := .err }

/-- A style element whose text contains, but is not literally, `style`. -/
def elStyleBad : Element := ⟨.ok "Savoury Style"⟩

/-- A detail page whose first style selector matches `elStyleBad`. -/
def docC8 : Doc :=
  { q1 := [("[class*=\"style\"]", .ok (some elStyleBad))]
    qAll := []
    body := .ok ""
    analyticsTab := .ok none
    clickRes := .ok ()
    bodyAfter := .ok "" }

/-- A style element with an acceptable, untrimmed text. -/
def elStyleOk : Element := ⟨.ok " Dry Red "⟩

/-- A detail page whose first style selector matches `elStyleOk`. -/
def docC8b : Doc :=
  { q1 := [("[class*=\"style\"]", .ok (some elStyleOk))]
    qAll := []
    body := .err
    analyticsTab := .ok none
    clickRes := .ok ()
    bodyAfter := .err }

/-- Resolved URL of the anchor `/find/wine-a`. -/
def linkA : String := "https://www.wine-searcher.com/find/wine-a"

/-- Resolved URL of the anchor `/find/wine-b`. -/
def linkB : String := "https://www.wine-searcher.com/find/wine-b"

/-- Resolved URL of the anchor `/find/wine-c`. -/
def linkC : String := "https://www.wine-searcher.com/find/wine-c"

/-- A demo input with a two-record cap. -/
def inputDemo : ActorInput :=
  { domain_url := "https://www.wine-searcher.com/merchant/test"
    max_wines := 2
    include_analytics := false
    use_proxy := false }

/-- A healthy run: ready start page, four anchors (one duplicate), every
detail page loading `docA`. -/
def wDemo : World :=
  { input := inputDemo
    start := fun _ => .ok true
    listingHrefs := [some "/find/wine-a", some "/find/wine-b", some "/find/wine-a",
                     some "/find/wine-c"]
    allAnchors := []
    details := fun _ => .ok docA }

/-- A run where navigation to `linkB` times out and the rest succeed. -/
def wFail : World :=
  { input := { inputDemo with max_wines := 0 }
    start := fun _ => .ok true
    listingHrefs := [some "/find/wine-a", some "/find/wine-b", some "/find/wine-c"]
    allAnchors := []
    details := fun u => if u = linkB then DetailNav.timeout else DetailNav.ok docA }

/-- A run whose start page times out on every attempt. -/
def wStartFail : World :=
  { wDemo with start := fun _ => .timeout }

/-- A run with an empty `domain_url`. -/
def wEmptyCfg : World :=
  { wDemo with input := { inputDemo with domain_url := "" } }

/-- A run whose listing page has no `/find/` anchors but one fallback
candidate. -/
def wNoLinks : World :=
  { wDemo with
    listingHrefs := [some "/about"]
    allAnchors := [(some "/wine/x", "Wine X page")] }

/-- A run with a negative `max_wines`. -/
def wNeg : World :=
  { wDemo with input := { inputDemo with max_wines := -1 } }

/-- Start outcomes: every attempt raises a non-timeout error. -/
def fAllFail : Nat → StartOutcome := fun _ => .failed

/-- Start outcomes: first attempt times out, then success. -/
def fOneTimeout : Nat → StartOutcome := fun n =>
  match n with
  | 0 => .timeout
  | _ => .ok true

/-- Start outcomes: every attempt times out. -/
def fAllTimeout : Nat → StartOutcome := fun _ => .timeout

/-! ### Helper lemmas -/

/-- Python truthiness of an optional string, spelled out. -/
theorem truthyS_iff (v : Option String) :
    truthyS v = true ↔ ∃ s, v = some s ∧ s ≠ "" := by
  cases v with
  | none => simp [truthyS]
  | some s => simp [truthyS]

/-- A selector cascade yields nothing exactly when every selector yields
nothing. -/
theorem firstHit_eq_none {α : Type} (step : String → Option α) (l : List String) :
    firstHit step l = none ↔ ∀ s ∈ l, step s = none := by
  induction l with
  | nil => simp [firstHit]
  | cons s rest ih =>
    cases h : step s with
    | none => simp [firstHit, h, ih]
    | some v => simp [firstHit, h]

/-- The guarded body-text fallback leaves the field empty exactly when both
the selector phase and the scan produced nothing. -/
theorem fallbackS_eq_none (v scan : Option String) :
    fallbackS v scan = none ↔ v = none ∧ scan = none := by
  cases v with
  | none => cases scan <;> simp [fallbackS, truthyS]
  | some s =>
    cases scan <;> cases hb : (s != "") <;> simp [fallbackS, truthyS, hb]

/-- Numeric version of `fallbackS_eq_none`. -/
theorem fallbackN_eq_none (v scan : Option Nat) :
    fallbackN v scan = none ↔ v = none ∧ scan = none := by
  cases v with
  | none => cases scan <;> simp [fallbackN, truthyN]
  | some n =>
    cases scan <;> cases hb : (n != 0) <;> simp [fallbackN, truthyN, hb]

/-- The dedup loop of `extract_wine_links` preserves freedom from
duplicates. -/
theorem linksLoop_nodup (l : List (Option String)) :
    ∀ acc : List String, acc.Nodup → (linksLoop acc l).Nodup := by
  induction l with
  | nil => intro acc h; simpa [linksLoop] using h
  | cons h? rest ih =>
    intro acc hacc
    cases h? with
    | none => simpa [linksLoop] using ih acc hacc
    | some h =>
      by_cases hc : h ≠ "" ∧ containsSub "/find/" h = true
      · by_cases hm : urljoin wineSearcherBase h ∈ acc
        · simpa [linksLoop, hc, hm] using ih acc hacc
        · have hnd : (acc ++ [urljoin wineSearcherBase h]).Nodup := by
            rw [List.nodup_append]
            refine ⟨hacc, List.nodup_singleton _, ?_⟩
            intro a ha hmem
            rw [List.mem_singleton] at hmem
            exact hm (hmem ▸ ha)
          simpa [linksLoop, hc, hm] using ih _ hnd
      · simpa [linksLoop, hc] using ih acc hacc

/-- The retry loop performs at most one navigation per remaining attempt. -/
theorem startLoop_navs_le (f : Nat → StartOutcome) :
    ∀ l : List Nat, (startLoop f l).navs ≤ l.length := by
  intro l
  induction l with
  | nil => simp [startLoop]
  | cons a rest ih =>
    cases h : f a with
    | ok b =>
      cases b with
      | true => simp [startLoop, h]
      | false =>
        simp [startLoop, h]
        omega
    | timeout =>
      cases rest with
      | nil => simp [startLoop, h]
      | cons b r2 =>
        have hred : (startLoop f (a :: b :: r2)).navs = (startLoop f (b :: r2)).navs + 1 := by
          simp [startLoop, h]
        simp only [List.length_cons] at ih ⊢
        rw [hred]
        omega
    | failed => simp [startLoop, h]

/-! ### Claim theorems -/

/-- C1: for every detail URL processed by the run loop, a record is pushed
to the output sink if and only if the extraction result is a record whose
`name` field is a non-empty, non-`None` value; a record whose name is
missing or empty is never emitted.  The second conjunct ties the emitted
feed of a whole run to exactly this per-URL rule over the iterated link
set. -/
theorem c1_emit_iff_valid_name (w : World) (u : String) (r : WineData) :
    (emitStep w u = some r ↔
      extract_wine_data (w.details u) u w.input.include_analytics = some r ∧
        ∃ s, r.name = some s ∧ s ≠ "") ∧
    (w.input.domain_url ≠ "" → (startLoad w.start).fatal = false →
      (main w).emitted = (main w).detailNavs.filterMap (emitStep w)) := by
  constructor
  · cases hx : extract_wine_data (w.details u) u w.input.include_analytics with
    | none => simp [emitStep, hx]
    | some dta =>
      constructor
      · intro hemit
        by_cases hb : truthyS dta.name = true
        · have hdr : dta = r := by simpa [emitStep, hx, hb] using hemit
          subst hdr
          obtain ⟨s, hs, hsne⟩ := (truthyS_iff dta.name).mp hb
          exact ⟨rfl, s, hs, hsne⟩
        · exfalso
          simp [emitStep, hx, hb] at hemit
      · rintro ⟨hdr, s, hs, hsne⟩
        injection hdr with hdr2
        subst hdr2
        have hb : truthyS dta.name = true := (truthyS_iff dta.name).mpr ⟨s, hs, hsne⟩
        simp [emitStep, hx, hb]
  · intro h1 h2
    simp [main, h1, h2]

/-- Witness for C1 on the concrete healthy run `wDemo`. -/
theorem c1_witness :
    (main wDemo).emitted = (main wDemo).detailNavs.filterMap (emitStep wDemo) :=
  (c1_emit_iff_valid_name wDemo linkA (extractFields docA false linkA)).2
    (by decide) (by decide)

/-- C2: the field extractor is a total function of the document (primitive
raises are absorbed as strategy misses), and for each field cascade of the
source the field resolves to `None` exactly when every strategy in the
cascade — every selector step, and the body-text scan where the source has
one — produces nothing; any single strategy failure merely falls through. -/
theorem c2_field_cascade_exhaustive (d : Doc) (inc : Bool) (u : String) :
    ((extractFields d inc u).name = none ↔ ∀ s ∈ nameSelectors, nameStep d s = none) ∧
    ((extractFields d inc u).appellation = none ↔
      ∀ s ∈ appellationSelectors, appStep d s = none) ∧
    ((extractFields d inc u).rating = none ↔
      ((∀ s ∈ ratingSelectors, ratingStep d s = none) ∧ ratingBody d = none)) ∧
    ((extractFields d inc u).style = none ↔
      ((∀ s ∈ styleSelectors, styleStep d s = none) ∧ styleBody d = none)) ∧
    ((extractFields d inc u).avg_price = none ↔
      ((∀ s ∈ priceSelectors, priceStep d s = none) ∧ priceBody d = none)) ∧
    ((extractFields d inc u).search_rank = none ↔ (inc = false ∨ rankPath d = none)) := by
  refine ⟨?_, ?_, ?_, ?_, ?_, ?_⟩
  · simpa [extractFields] using firstHit_eq_none (nameStep d) nameSelectors
  · simpa [extractFields] using firstHit_eq_none (appStep d) appellationSelectors
  · rw [show (extractFields d inc u).rating =
        fallbackN (firstHit (ratingStep d) ratingSelectors) (ratingBody d) from rfl,
      fallbackN_eq_none, firstHit_eq_none]
  · rw [show (extractFields d inc u).style =
        fallbackS (firstHit (styleStep d) styleSelectors) (styleBody d) from rfl,
      fallbackS_eq_none, firstHit_eq_none]
  · rw [show (extractFields d inc u).avg_price =
        fallbackS (firstHit (priceStep d) priceSelectors) (priceBody d) from rfl,
      fallbackS_eq_none, firstHit_eq_none]
  · cases inc with
    | true => simp [extractFields]
    | false => simp [extractFields]

/-- Witness for C2 on a document where every primitive raises: all fields
resolve to `None` rather than an error. -/
theorem c2_witness :
    (extractFields docEmpty true "u").name = none ∧
    (extractFields docEmpty true "u").rating = none ∧
    (extractFields docEmpty true "u").search_rank = none :=
  ⟨(c2_field_cascade_exhaustive docEmpty true "u").1.mpr (by decide),
   (c2_field_cascade_exhaustive docEmpty true "u").2.2.1.mpr (by decide),
   (c2_field_cascade_exhaustive docEmpty true "u").2.2.2.2.2.mpr (by decide)⟩

/-- C3: a navigation failure (timeout or other exception) on a detail page
makes the extraction result `None`, nothing is emitted for that URL, and the
run loop still processes every other URL of the link set; only a fatal
start-page load makes the whole run fail, and with a healthy start page the
run never turns fatal whatever the detail outcomes. -/
theorem c3_detail_failure_skip :
    (∀ (u : String) (inc : Bool),
      extract_wine_data DetailNav.timeout u inc = none ∧
      extract_wine_data DetailNav.failed u inc = none) ∧
    (∀ (w : World) (u : String),
      (w.details u = DetailNav.timeout ∨ w.details u = DetailNav.failed) →
      emitStep w u = none) ∧
    (∀ (w : World) (l1 l2 : List String) (u : String),
      (w.details u = DetailNav.timeout ∨ w.details u = DetailNav.failed) →
      (l1 ++ u :: l2).filterMap (emitStep w) =
        l1.filterMap (emitStep w) ++ l2.filterMap (emitStep w)) ∧
    (∀ w : World, w.input.domain_url ≠ "" →
      ((startLoad w.start).fatal = true →
        (main w).fatal = true ∧ (main w).attempted = 0 ∧ (main w).emitted = []) ∧
      ((startLoad w.start).fatal = false → (main w).fatal = false)) := by
  refine ⟨?_, ?_, ?_, ?_⟩
  · intro u inc
    exact ⟨rfl, rfl⟩
  · intro w u h
    rcases h with h | h <;> simp [emitStep, extract_wine_data, h]
  · intro w l1 l2 u h
    have he : emitStep w u = none := by
      rcases h with h | h <;> simp [emitStep, extract_wine_data, h]
    simp [List.filterMap_append, List.filterMap_cons, he]
  · intro w h1
    constructor
    · intro h2
      refine ⟨?_, ?_, ?_⟩ <;> simp [main, h1, h2]
    · intro h2
      simp [main, h1, h2]

/-- Witness for C3: a timing-out detail URL in the middle of the set is
skipped while the neighbours still contribute, and an all-timeout start page
is fatal. -/
theorem c3_witness :
    ([linkA] ++ linkB :: [linkC]).filterMap (emitStep wFail) =
      [linkA].filterMap (emitStep wFail) ++ [linkC].filterMap (emitStep wFail) ∧
    (main wStartFail).fatal = true :=
  ⟨c3_detail_failure_skip.2.2.1 wFail [linkA] [linkC] linkB (Or.inl (by decide)),
   ((c3_detail_failure_skip.2.2.2 wStartFail (by decide)).1 (by decide)).1⟩

/-- C4: the start-page loader performs at most three navigation attempts,
sleeps the fixed 5-second backoff between successive attempts (so the
accumulated delay grows linearly with the retry count), retries only
timeout-class failures, and lets a non-timeout failure propagate at once
without a retry or a backoff sleep. -/
theorem c4_start_retry_policy :
    (∀ f : Nat → StartOutcome, (startLoad f).navs ≤ 3) ∧
    (∀ f : Nat → StartOutcome, f 0 = StartOutcome.failed →
      startLoad f = ⟨true, 1, []⟩) ∧
    (∀ f : Nat → StartOutcome, f 0 = StartOutcome.timeout → f 1 = StartOutcome.failed →
      startLoad f = ⟨true, 2, [5]⟩) ∧
    (∀ f : Nat → StartOutcome, f 0 = StartOutcome.timeout → f 1 = StartOutcome.timeout →
      f 2 = StartOutcome.timeout → startLoad f = ⟨true, 3, [5, 5]⟩) ∧
    (∀ f : Nat → StartOutcome, f 0 = StartOutcome.timeout → f 1 = StartOutcome.ok true →
      startLoad f = ⟨false, 2, [5]⟩) := by
  refine ⟨?_, ?_, ?_, ?_, ?_⟩
  · intro f
    simpa [startLoad] using startLoop_navs_le f [0, 1, 2]
  · intro f h0
    simp [startLoad, startLoop, h0]
  · intro f h0 h1
    simp [startLoad, startLoop, h0, h1]
  · intro f h0 h1 h2
    simp [startLoad, startLoop, h0, h1, h2]
  · intro f h0 h1
    simp [startLoad, startLoop, h0, h1]

/-- Witness for C4 at three concrete attempt streams. -/
theorem c4_witness :
    startLoad fAllFail = ⟨true, 1, []⟩ ∧
    startLoad fOneTimeout = ⟨false, 2, [5]⟩ ∧
    startLoad fAllTimeout = ⟨true, 3, [5, 5]⟩ :=
  ⟨c4_start_retry_policy.2.1 fAllFail rfl,
   c4_start_retry_policy.2.2.2.2 fOneTimeout rfl rfl,
   c4_start_retry_policy.2.2.2.1 fAllTimeout rfl rfl rfl⟩

/-- C5: with `max_wines = k > 0` and `n` discovered links, the link set is
truncated to its first `k` elements before iteration and exactly
`min k n` assembly attempts occur; with `max_wines = 0` no truncation
happens and all `n` links are attempted. -/
theorem c5_truncation_law (w : World) (h1 : w.input.domain_url ≠ "")
    (h2 : (startLoad w.start).fatal = false) :
    (0 < w.input.max_wines →
      (main w).detailNavs =
        (extract_wine_links w.listingHrefs).take w.input.max_wines.toNat ∧
      (main w).attempted =
        min w.input.max_wines.toNat (extract_wine_links w.listingHrefs).length) ∧
    (w.input.max_wines = 0 →
      (main w).attempted = (extract_wine_links w.listingHrefs).length) := by
  constructor
  · intro hk
    have hp : procLinks w =
        (extract_wine_links w.listingHrefs).take w.input.max_wines.toNat := by
      simp [procLinks, hk]
    constructor
    · simp [main, h1, h2, hp]
    · simp [main, h1, h2, hp, List.length_take]
  · intro hk
    have hp : procLinks w = extract_wine_links w.listingHrefs := by
      simp [procLinks, hk]
    simp [main, h1, h2, hp]

/-- Witness for C5: the demo run caps 3 discovered links at 2 attempts. -/
theorem c5_witness :
    (main wDemo).attempted =
      min wDemo.input.max_wines.toNat (extract_wine_links wDemo.listingHrefs).length :=
  ((c5_truncation_law wDemo (by decide) (by decide)).1 (by decide)).2

/-- C6: the discovered link set never contains a duplicate URL, whatever
anchors the listing page offers, and duplicate anchors keep first-seen
order: anchors `/find/wine-a`, `/find/wine-b`, `/find/wine-a` yield exactly
the two resolved URLs in that order. -/
theorem c6_linkset_dedup :
    (∀ hrefs : List (Option String), (extract_wine_links hrefs).Nodup) ∧
    extract_wine_links [some "/find/wine-a", some "/find/wine-b", some "/find/wine-a"] =
      ["https://www.wine-searcher.com/find/wine-a",
       "https://www.wine-searcher.com/find/wine-b"] := by
  constructor
  · intro hrefs
    exact linksLoop_nodup hrefs [] (by simp)
  · decide

/-- C7: an empty `domain_url` makes the run return with a configuration
error before any activity: no start-page navigation, no backoff sleeps, no
link discovery diagnostics, no detail URLs iterated, no assembly attempts
and no emissions. -/
theorem c7_config_fail_fast (w : World) (h : w.input.domain_url = "") :
    (main w).configError = true ∧ (main w).startNavs = 0 ∧
    (main w).startSleeps = [] ∧ (main w).detailNavs = [] ∧
    (main w).attempted = 0 ∧ (main w).emitted = [] ∧
    (main w).fallbackLogs = [] := by
  refine ⟨?_, ?_, ?_, ?_, ?_, ?_, ?_⟩ <;> simp [main, h]

/-- Witness for C7 on the concrete empty-input world. -/
theorem c7_witness :
    (main wEmptyCfg).configError = true ∧ (main wEmptyCfg).emitted = [] := by
  have h := c7_config_fail_fast wEmptyCfg (by decide)
  exact ⟨h.1, h.2.2.2.2.2.1⟩

/-- C8 counterexample: the claim predicts that a matched style text passing
the stated check (non-empty and not literally the word `style`) is returned
trimmed, but the element text `Savoury Style` — non-empty and distinct from
`style` — is rejected by the code, whose check refuses any text containing
`style` as a substring: the extracted style is `None`, not the trimmed
text. -/
theorem c8_counterexample :
    ("Savoury Style" ≠ "" ∧ lowerStr "Savoury Style" ≠ "style" ∧
      q1Res docC8 "[class*=\"style\"]" = Res.ok (some elStyleBad) ∧
      elStyleBad.text = Res.ok "Savoury Style" ∧
      strip "Savoury Style" = "Savoury Style") ∧
    (extractFields docC8 false "u").style = none := by decide

/-- C8 (amended): a selector-based style extraction accepts a matched
element's text exactly when it is non-empty and its lowercased form does
not contain `style` as a substring; an accepted value is returned trimmed,
and when the first style selector accepts, the assembled record carries that
trimmed value. -/
theorem c8_style_substring_check (d : Doc) (e : Element) (t : String)
    (inc : Bool) (u : String) :
    (∀ s : String, q1Res d s = Res.ok (some e) → e.text = Res.ok t →
      styleStep d s =
        (if t ≠ "" ∧ containsSub "style" (lowerStr t) = false
         then some (strip t) else none)) ∧
    (q1Res d "[class*=\"style\"]" = Res.ok (some e) → e.text = Res.ok t →
      t ≠ "" → containsSub "style" (lowerStr t) = false → strip t ≠ "" →
      (extractFields d inc u).style = some (strip t)) := by
  constructor
  · intro s h1 h2
    simp [styleStep, h1, h2]
  · intro h1 h2 h3 h4 h5
    have hs : styleStep d "[class*=\"style\"]" = some (strip t) := by
      simp [styleStep, h1, h2, h3, h4]
    have hfh : firstHit (styleStep d) styleSelectors = some (strip t) := by
      simp [styleSelectors, firstHit, hs]
    have ht : truthyS (some (strip t)) = true := by
      simp [truthyS, h5]
    simp [extractFields, fallbackS, hfh, ht]

/-- Witness for the amended C8: an accepted text ` Dry Red ` is returned
stripped. -/
theorem c8_witness :
    (extractFields docC8b false "u").style = some (strip " Dry Red ") :=
  (c8_style_substring_check docC8b elStyleOk " Dry Red " false "u").2
    (by decide) (by decide) (by decide) (by decide) (by decide)

/-- C9: the fallback broad scan is purely diagnostic — the anchors it sees
influence nothing but the log lines (emissions, attempt count and iterated
URLs are unchanged under any replacement of those anchors), and when the
primary heuristic finds no links the run iterates nothing while the scan's
candidates appear only in the logs. -/
theorem c9_fallback_diagnostic_only :
    (∀ (w : World) (a' : List (Option String × String)),
      (main { w with allAnchors := a' }).emitted = (main w).emitted ∧
      (main { w with allAnchors := a' }).attempted = (main w).attempted ∧
      (main { w with allAnchors := a' }).detailNavs = (main w).detailNavs) ∧
    (∀ w : World, w.input.domain_url ≠ "" → (startLoad w.start).fatal = false →
      extract_wine_links w.listingHrefs = [] →
      (main w).fallbackLogs = fallbackScan w.allAnchors ∧
      (main w).attempted = 0 ∧ (main w).emitted = []) := by
  constructor
  · intro w a'
    have he : emitStep { w with allAnchors := a' } = emitStep w := rfl
    have hp : procLinks { w with allAnchors := a' } = procLinks w := rfl
    by_cases h1 : w.input.domain_url = ""
    · simp [main, h1]
    · by_cases h2 : (startLoad w.start).fatal
      · simp [main, h1, h2]
      · simp [main, h1, h2, he, hp]
  · intro w h1 h2 h3
    have hp : procLinks w = [] := by simp [procLinks, h3]
    simp [main, h1, h2, h3, hp]

/-- Witness for C9 on a listing page without `/find/` anchors. -/
theorem c9_witness :
    (main { wNoLinks with allAnchors := [] }).emitted = (main wNoLinks).emitted ∧
    (main wNoLinks).fallbackLogs = fallbackScan wNoLinks.allAnchors ∧
    (main wNoLinks).attempted = 0 :=
  ⟨(c9_fallback_diagnostic_only.1 wNoLinks []).1,
   (c9_fallback_diagnostic_only.2 wNoLinks (by decide) (by decide) (by decide)).1,
   (c9_fallback_diagnostic_only.2 wNoLinks (by decide) (by decide) (by decide)).2.1⟩

/-- C10: a negative `max_wines` behaves exactly like `max_wines = 0` — the
truncation branch fires only for a strictly positive value, so the whole
observable run outcome is unchanged and every discovered link is
attempted. -/
theorem c10_negative_max_unbounded (w : World) (h : w.input.max_wines < 0) :
    main w = main { w with input := { w.input with max_wines := 0 } } ∧
    (w.input.domain_url ≠ "" → (startLoad w.start).fatal = false →
      (main w).attempted = (extract_wine_links w.listingHrefs).length) := by
  have hng : ¬(w.input.max_wines > 0) := by omega
  have he : emitStep { w with input := { w.input with max_wines := 0 } } = emitStep w := rfl
  constructor
  · by_cases h1 : w.input.domain_url = ""
    · simp [main, h1]
    · by_cases h2 : (startLoad w.start).fatal
      · simp [main, h1, h2]
      · simp [main, h1, h2, procLinks, hng, he]
  · intro h1 h2
    simp [main, h1, h2, procLinks, hng]

/-- Witness for C10 on the concrete run with `max_wines = -1`. -/
theorem c10_witness :
    main wNeg = main { wNeg with input := { wNeg.input with max_wines := 0 } } ∧
    (main wNeg).attempted = (extract_wine_links wNeg.listingHrefs).length :=
  ⟨(c10_negative_max_unbounded wNeg (by decide)).1,
   (c10_negative_max_unbounded wNeg (by decide)).2 (by decide) (by decide)⟩

end WS
